import Mathlib

set_option linter.unusedVariables false

/-
Shallow embedding of the plan-lifecycle core of the vibe-travel backend
(src/backend/src/apps/plans/...): the Plan entity state machine, the plan
repository queries, the creation/acceptance strategies and the orchestration
use cases, together with theorems settling the specification claims.

Conventions of the embedding:
* Python `int` ids and timestamps are Nat; `uuid.UUID` values are Nat.
* A Python method that mutates `self` in place and may raise is embedded as a
  function returning `Option PyErr × Plan`: the first component is the raised
  exception (if any) and the second is the state of the object after the call
  (raising happens before any field assignment in all embedded methods, so on
  an error the object is returned unchanged exactly as in the source).
* The database session is an explicit `List Plan`; SELECT queries become
  `List.find?` / `List.filter` over it and commits become list updates.
* The service-layer function PlanGenerationService.generate_plan takes the
  AI adapter outcome (generated text or one of the infrastructure AI errors)
  as a parameter of type `Except PyErr String`.  The generate use case,
  however, calls that service with keyword arguments its signature does not
  accept, so the use-case-level call is embedded as the TypeError that the
  keyword binding raises (see staged_service_call below).
-/

namespace VibeTravel

/-- PlanTypeEnum from src/apps/plans/enums.py. -/
inductive PlanTypeEnum where
  | AI
  | MANUAL
  | HYBRID
deriving DecidableEq, Repr

/-- PlanStatusEnum from src/apps/plans/enums.py. -/
inductive PlanStatusEnum where
  | PENDING_AI
  | ACTIVE
  | ARCHIVED
deriving DecidableEq, Repr

/-- Python string of a PlanStatusEnum member, used in exception messages. -/
def statusStr : PlanStatusEnum → String
  | .PENDING_AI => "PENDING_AI"
  | .ACTIVE => "ACTIVE"
  | .ARCHIVED => "ARCHIVED"

/-- Exceptions raised by the embedded code.  `valueError` is Python's
ValueError (the source raises it where the spec says InvalidStateError);
`attributeError` is Python's AttributeError on a missing attribute;
the ai* constructors are the infrastructure-layer AIBaseError subclasses
(src/insfrastructure/ai/exceptions.py); `appsAiTimeout` / `appsAiUnavailable`
are the distinct apps-layer classes of the same names defined in
src/apps/plans/exceptions.py; `planGeneration` is PlanGenerationError with
its note_id, message and the `from exc` cause chain. -/
inductive PyErr where
  | valueError (msg : String)
  | attributeError (attr : String)
  | noteNotFound (note_id : Nat)
  | profileNotFound
  | planNotFound (generation_id : Nat) (note_id : Nat)
  | planConflict (note_id : Nat)
  | activePlanNotFound (note_id : Nat)
  | validationError (msg : String)
  | aiTimeout
  | aiUnavailable
  | aiModel (msg : String)
  | appsAiTimeout
  | appsAiUnavailable
  | typeError (msg : String)
  | planGeneration (note_id : Nat) (msg : String) (cause : Option PyErr)

/-- The Plan model from src/apps/plans/models/plan.py (persisted columns that
the embedded operations read or write; created_at is omitted as no claim
mentions it). -/
structure Plan where
  id : Nat
  note_id : Nat
  plan_text : String
  type : PlanTypeEnum
  status : PlanStatusEnum
  generation_id : Nat
  updated_at : Nat
deriving DecidableEq, Repr

/-- Plan.accept_ai_proposal: raises ValueError unless status is PENDING_AI,
otherwise sets status to ACTIVE.  Returns (raised exception, object state
after the call). -/
def Plan.accept_ai_proposal (p : Plan) : Option PyErr × Plan :=
  if p.status ≠ PlanStatusEnum.PENDING_AI then
    (some (.valueError ("Cannot accept plan with status " ++ statusStr p.status)), p)
  else
    (none, { p with status := PlanStatusEnum.ACTIVE })

/-- Plan.accept_ai_proposal_as_hybrid: raises ValueError unless status is
PENDING_AI, otherwise replaces plan_text, sets type HYBRID and status
ACTIVE. -/
def Plan.accept_ai_proposal_as_hybrid (p : Plan) (new_plan_text : String) :
    Option PyErr × Plan :=
  if p.status ≠ PlanStatusEnum.PENDING_AI then
    (some (.valueError ("Cannot accept plan with status " ++ statusStr p.status ++ " to hybrid")), p)
  else
    (none,
      { p with
        plan_text := new_plan_text
        type := PlanTypeEnum.HYBRID
        status := PlanStatusEnum.ACTIVE })

/-- Plan.update: raises ValueError unless status is ACTIVE, otherwise replaces
plan_text and widens type AI to HYBRID (other types unchanged). -/
def Plan.update (p : Plan) (new_plan_text : String) : Option PyErr × Plan :=
  if p.status ≠ PlanStatusEnum.ACTIVE then
    (some (.valueError ("Cannot update plan with status " ++ statusStr p.status)), p)
  else
    (none,
      { p with
        plan_text := new_plan_text
        type := if p.type = PlanTypeEnum.AI then PlanTypeEnum.HYBRID else p.type })

/-- Plan.create_manual: a new plan with status ACTIVE and type MANUAL.  The
id is assigned on persist and the generation_id column default mints a fresh
value on INSERT; both are passed in explicitly here. -/
def Plan.create_manual (note_id : Nat) (plan_text : String) (generation_id : Nat) : Plan :=
  { id := 0
    note_id := note_id
    plan_text := plan_text
    type := PlanTypeEnum.MANUAL
    status := PlanStatusEnum.ACTIVE
    generation_id := generation_id
    updated_at := 0 }

/-- Plan.create_ai: a new plan with status PENDING_AI and type AI. -/
def Plan.create_ai (note_id : Nat) (plan_text : String) (generation_id : Nat) : Plan :=
  { id := 0
    note_id := note_id
    plan_text := plan_text
    type := PlanTypeEnum.AI
    status := PlanStatusEnum.PENDING_AI
    generation_id := generation_id
    updated_at := 0 }

/-- Folding Plan.update over a list of texts; each call acts on the object
state left by the previous one (a failed call leaves it unchanged, exactly as
the in-place Python mutation does). -/
def applyUpdates (p : Plan) (ts : List String) : Plan :=
  ts.foldl (fun q t => (Plan.update q t).2) p

/-- The Note model (src/apps/notes/models/note.py), restricted to the columns
the plan use cases read. -/
structure Note where
  id : Nat
  user_id : Nat
  title : String
deriving DecidableEq, Repr

/-- NoteRepository.get_by_id (src/apps/notes/repositories/note_repository.py):
SELECT by id and user_id; raises NoteNotFoundError when no row matches. -/
def NoteRepository.get_by_id (notes : List Note) (note_id user_id : Nat) :
    Except PyErr Note :=
  match notes.find? (fun n => decide (n.id = note_id ∧ n.user_id = user_id)) with
  | some n => .ok n
  | none => .error (.noteNotFound note_id)

/-- The UserProfile model (src/apps/users/models/profile.py), restricted to
the preference columns. -/
structure UserProfile where
  user_id : Nat
  travel_style : Option String
  budget : Option String
  preferred_pace : Option String
deriving DecidableEq, Repr

/-- UserProfileRepository.get_by_user_id: first profile row matching the
user id, or None. -/
def UserProfileRepository.get_by_user_id (profiles : List UserProfile) (user_id : Nat) :
    Option UserProfile :=
  profiles.find? (fun p => decide (p.user_id = user_id))

/-- UserProfileRepository.get_user_preferences
(src/apps/users/repositories/profile_repository.py): returns the preferences
dict; when the profile row is missing it returns the empty dict (no exception
is raised).  The dict is embedded as an association list. -/
def UserProfileRepository.get_user_preferences (profiles : List UserProfile) (user_id : Nat) :
    List (String × Option String) :=
  match UserProfileRepository.get_by_user_id profiles user_id with
  | none => []
  | some p =>
      [("travel_style", p.travel_style), ("budget", p.budget), ("preferred_pace", p.preferred_pace)]

/-- PlanRepository.get_by_generation_id_and_note_id_and_status
(src/apps/plans/repositories/plan_repository.py): SELECT filtered on all
three columns (generation_id is unique, so at most one row matches);
raises PlanNotFoundError when no row matches.  The row lock taken when
for_update is true serializes concurrent access and has no effect on the
sequential result. -/
def PlanRepository.get_by_generation_id_and_note_id_and_status
    (plans : List Plan) (generation_id note_id : Nat) (status : PlanStatusEnum)
    (for_update : Bool) : Except PyErr Plan :=
  match plans.find?
      (fun p => decide (p.generation_id = generation_id ∧ p.note_id = note_id ∧ p.status = status)) with
  | some p => .ok p
  | none => .error (.planNotFound generation_id note_id)

/-- One step of the ORDER BY updated_at DESC, LIMIT 1 selection: keep the row
with the larger updated_at (the first seen on a tie, ties being unspecified
in SQL). -/
def latestStep (best : Option Plan) (p : Plan) : Option Plan :=
  match best with
  | none => some p
  | some q => if q.updated_at < p.updated_at then some p else some q

/-- PlanRepository.get_last_updated_by_note_id_and_status: SELECT filtered on
note_id and status, ORDER BY updated_at DESC, LIMIT 1 — an element of the
filtered rows with maximal updated_at, or None when no row matches. -/
def PlanRepository.get_last_updated_by_note_id_and_status
    (plans : List Plan) (note_id : Nat) (status : PlanStatusEnum) : Option Plan :=
  (plans.filter (fun p => decide (p.note_id = note_id ∧ p.status = status))).foldl
    latestStep none

/-- PlanRepository.create: INSERT of a new row; the database assigns the id
and the updated_at timestamp. -/
def PlanRepository.create (plans : List Plan) (plan : Plan) (fresh_id now : Nat) :
    Plan × List Plan :=
  let persisted := { plan with id := fresh_id, updated_at := now }
  (persisted, plans ++ [persisted])

/-- PlanRepository.update_plan: commit of an in-memory mutation; the row with
the plan's id takes the mutated state and the database refreshes
updated_at. -/
def PlanRepository.update_plan (plans : List Plan) (plan : Plan) (now : Nat) :
    Plan × List Plan :=
  let saved := { plan with updated_at := now }
  (saved, plans.map (fun q => if q.id = plan.id then saved else q))

/-- AcceptAIPlanStrategy.execute
(src/apps/plans/usecases/strategies/create_plan_strategies.py): locked lookup
of the PENDING_AI plan by (generation_id, note_id), then
plan.accept_ai_proposal(), then repository save. -/
def AcceptAIPlanStrategy.execute (plans : List Plan) (note_id generation_id now : Nat) :
    Except PyErr (Plan × List Plan) :=
  match PlanRepository.get_by_generation_id_and_note_id_and_status
      plans generation_id note_id PlanStatusEnum.PENDING_AI true with
  | .error e => .error e
  | .ok plan =>
      match plan.accept_ai_proposal with
      | (some e, _) => .error e
      | (none, mutated) => .ok (PlanRepository.update_plan plans mutated now)

/-- CreateHybridPlanStrategy.execute: the same locked lookup, then the call
`plan.convert_to_hybrid(new_plan_text=plan_text)`.  The Plan class defines no
attribute named convert_to_hybrid (its hybrid-accept method is
accept_ai_proposal_as_hybrid), so this attribute access raises
AttributeError before any field of the plan is touched and before any save. -/
def CreateHybridPlanStrategy.execute (plans : List Plan) (note_id generation_id : Nat)
    (plan_text : String) (now : Nat) : Except PyErr (Plan × List Plan) :=
  match PlanRepository.get_by_generation_id_and_note_id_and_status
      plans generation_id note_id PlanStatusEnum.PENDING_AI true with
  | .error e => .error e
  | .ok _ => .error (.attributeError "convert_to_hybrid")

/-- CreateManualPlanStrategy.execute: builds Plan.create_manual and persists
it via the repository (no pre-existing row is needed). -/
def CreateManualPlanStrategy.execute (plans : List Plan) (note_id : Nat)
    (plan_text : String) (fresh_id fresh_generation_id now : Nat) :
    Except PyErr (Plan × List Plan) :=
  .ok (PlanRepository.create plans (Plan.create_manual note_id plan_text fresh_generation_id)
    fresh_id now)

/-- The strategy selected by CreateOrAcceptPlanUseCase._select_strategy,
carrying the arguments the selected execute method consumes. -/
inductive SelectedStrategy where
  | accept_ai (generation_id : Nat)
  | create_hybrid (generation_id : Nat) (plan_text : String)
  | create_manual (plan_text : String)
deriving DecidableEq, Repr

/-- CreateOrAcceptPlanUseCase._select_strategy
(src/apps/plans/usecases/create_or_accept_plan_usecase.py): is-None dispatch
on (generation_id, plan_text); raises ValueError when both are None. -/
def CreateOrAcceptPlanUseCase.select_strategy (generation_id : Option Nat)
    (plan_text : Option String) : Except PyErr SelectedStrategy :=
  match generation_id, plan_text with
  | some g, none => .ok (.accept_ai g)
  | some g, some t => .ok (.create_hybrid g t)
  | none, some t => .ok (.create_manual t)
  | none, none => .error (.valueError "plan_text must be provided for manual plans")

/-- CreateOrAcceptPlanUseCase._validate_no_active_plan_conflict: skipped
entirely when generation_id is not None; otherwise raises PlanConflictError
when an ACTIVE plan exists for the note. -/
def CreateOrAcceptPlanUseCase.validate_no_active_plan_conflict
    (plans : List Plan) (note_id : Nat) (generation_id : Option Nat) : Option PyErr :=
  match generation_id with
  | some _ => none
  | none =>
      match PlanRepository.get_last_updated_by_note_id_and_status
          plans note_id PlanStatusEnum.ACTIVE with
      | some _ => some (.planConflict note_id)
      | none => none

/-- PlanCreateInDTO from src/apps/plans/usecases/dto/plan_dtos.py. -/
structure PlanCreateInDTO where
  note_id : Nat
  user_id : Nat
  generation_id : Option Nat
  plan_text : Option String
deriving DecidableEq, Repr

/-- CreateOrAcceptPlanUseCase.execute: note-ownership check, conflict check,
strategy selection, strategy execution.  The _to_dto step copies the plan's
fields one-to-one into PlanCreateOutDTO, so the plan itself is returned
here. -/
def CreateOrAcceptPlanUseCase.execute (notes : List Note) (plans : List Plan)
    (dto : PlanCreateInDTO) (fresh_id fresh_generation_id now : Nat) :
    Except PyErr (Plan × List Plan) :=
  match NoteRepository.get_by_id notes dto.note_id dto.user_id with
  | .error e => .error e
  | .ok _ =>
      match CreateOrAcceptPlanUseCase.validate_no_active_plan_conflict
          plans dto.note_id dto.generation_id with
      | some e => .error e
      | none =>
          match CreateOrAcceptPlanUseCase.select_strategy dto.generation_id dto.plan_text with
          | .error e => .error e
          | .ok (.accept_ai g) => AcceptAIPlanStrategy.execute plans dto.note_id g now
          | .ok (.create_hybrid g t) =>
              CreateHybridPlanStrategy.execute plans dto.note_id g t now
          | .ok (.create_manual t) =>
              CreateManualPlanStrategy.execute plans dto.note_id t fresh_id
                fresh_generation_id now

/-- Python truthiness of an Optional[UUID]: None is falsy, every UUID value is
truthy. -/
def truthyOptId : Option Nat → Bool
  | none => false
  | some _ => true

/-- Python truthiness of an Optional[str]: None and the empty string are
falsy. -/
def truthyOptStr : Option String → Bool
  | none => false
  | some s => !s.isEmpty

/-- PlanCreateInSchema.validate_at_least_one_field
(src/apps/plans/schemas/plan.py): the pydantic model validator raising when
neither generation_id nor plan_text is truthy (surfaced as a request
ValidationError at the boundary). -/
def PlanCreateInSchema.validate_at_least_one_field (generation_id : Option Nat)
    (plan_text : Option String) : Except PyErr Unit :=
  if !truthyOptId generation_id && !truthyOptStr plan_text then
    .error (.validationError "At least one of generation_id or plan_text must be provided")
  else
    .ok ()

/-- GetActivePlanUseCase.execute
(src/apps/plans/usecases/get_active_plan_usecase.py): note-ownership check,
then the last-updated ACTIVE plan for the note, raising
ActivePlanNotFoundError when none exists.  The path issues only SELECTs, so
the store is returned unchanged; _to_dto copies the plan's fields
one-to-one. -/
def GetActivePlanUseCase.execute (notes : List Note) (plans : List Plan)
    (note_id user_id : Nat) : Except PyErr Plan × List Plan :=
  match NoteRepository.get_by_id notes note_id user_id with
  | .error e => (.error e, plans)
  | .ok _ =>
      match PlanRepository.get_last_updated_by_note_id_and_status
          plans note_id PlanStatusEnum.ACTIVE with
      | none => (.error (.activePlanNotFound note_id), plans)
      | some p => (.ok p, plans)

/-- UpdatePlanUseCase.execute
(src/apps/plans/usecases/update_plan_usecase.py): note-ownership check, fetch
of the ACTIVE plan (ActivePlanNotFoundError when none), plan.update, save. -/
def UpdatePlanUseCase.execute (notes : List Note) (plans : List Plan)
    (note_id user_id : Nat) (plan_text : String) (now : Nat) :
    Except PyErr (Plan × List Plan) :=
  match NoteRepository.get_by_id notes note_id user_id with
  | .error e => .error e
  | .ok _ =>
      match PlanRepository.get_last_updated_by_note_id_and_status
          plans note_id PlanStatusEnum.ACTIVE with
      | none => .error (.activePlanNotFound note_id)
      | some plan =>
          match plan.update plan_text with
          | (some e, _) => .error e
          | (none, mutated) => .ok (PlanRepository.update_plan plans mutated now)

/-- Whether an exception is an instance of the infrastructure AIBaseError
hierarchy (src/insfrastructure/ai/exceptions.py). -/
def isAIBaseError : PyErr → Bool
  | .aiTimeout => true
  | .aiUnavailable => true
  | .aiModel _ => true
  | _ => false

/-- The `.message` attribute of the embedded exceptions, as set by their
constructors in the source. -/
def PyErr.message : PyErr → String
  | .valueError m => m
  | .attributeError a => "Plan object has no attribute " ++ a
  | .noteNotFound n => "Note with ID " ++ toString n ++ " not found."
  | .profileNotFound => "Profile not found"
  | .planNotFound g n =>
      "Plan not found with generation_id " ++ toString g ++ " for note " ++ toString n
  | .planConflict n => "An active plan already exists for note " ++ toString n
  | .activePlanNotFound n => "No active plan found for note " ++ toString n
  | .validationError m => m
  | .aiTimeout => "AI service request timed out after 5 seconds"
  | .aiUnavailable => "AI service is currently unavailable"
  | .aiModel m => m
  | .appsAiTimeout => "AI service request timed out after 5 seconds"
  | .appsAiUnavailable => "AI service is currently unavailable"
  | .typeError m => m
  | .planGeneration _ m _ => m

/-- Python str(exc) for the exceptions that get re-wrapped (for
PlanGenerationError the base Exception was initialized with
message + " for note " + note_id). -/
def PyErr.pyStr : PyErr → String
  | .planGeneration n m _ => m ++ " for note " ++ toString n
  | e => e.message

/-- PlanGenerationService.generate_plan
(src/apps/plans/services/plan_generation_service.py): invokes the AI adapter;
a raised AIBaseError is wrapped as PlanGenerationError(note_id,
ai_error.message) with the cause chained, and any other exception is wrapped
as PlanGenerationError with an "Unexpected error" message; on success the
generated text is returned.  The adapter outcome is passed in as a
parameter. -/
def PlanGenerationService.generate_plan (note_id : Nat)
    (aiOutcome : Except PyErr String) : Except PyErr String :=
  match aiOutcome with
  | .ok text => .ok text
  | .error e =>
      if isAIBaseError e then
        .error (.planGeneration note_id e.message (some e))
      else
        .error (.planGeneration note_id
          ("Unexpected error during plan generation: " ++ e.pyStr) (some e))

/-- GeneratePlanUseCase._generate_plan_text
(src/apps/plans/usecases/generate_plan_usercase.py, lines 95-103): re-raises
the apps-layer AIServiceTimeoutError / AIServiceUnavailableError unchanged
and wraps every other exception as PlanGenerationError(note_id, str(exc))
with the cause chained. -/
def GeneratePlanUseCase.generate_plan_text (note_id : Nat)
    (serviceResult : Except PyErr String) : Except PyErr String :=
  match serviceResult with
  | .ok t => .ok t
  | .error e =>
      match e with
      | .appsAiTimeout => .error e
      | .appsAiUnavailable => .error e
      | _ => .error (.planGeneration note_id e.pyStr (some e))

/-- GeneratePlanOutDTO from src/apps/plans/usecases/dto/plan_dtos.py. -/
structure GeneratePlanOutDTO where
  generation_id : Nat
  plan_text : String
  status : PlanStatusEnum
deriving DecidableEq, Repr

/-- The outcome of the call
`self.plan_generation_service.generate_plan(note_content=..., user_preferences=...)`
inside GeneratePlanUseCase._generate_plan_text: the service signature is
`generate_plan(self, travel_plan_dto, max_tokens=None, temperature=None)`,
which has no parameter named note_content or user_preferences and no
**kwargs, so Python raises TypeError at keyword binding, inside the try
block, before the service body — and hence the AI adapter — can run. -/
def staged_service_call : Except PyErr String :=
  Except.error (PyErr.typeError
    "generate_plan() got an unexpected keyword argument note_content")

/-- GeneratePlanUseCase.execute: note-ownership check, preference load (the
result feeds only the service call), then _generate_plan_text, whose service
call always raises the keyword-binding TypeError (staged_service_call) and
whose except-Exception clause wraps it as PlanGenerationError; the
persistence branch is kept as in the source although no run reaches it.
fresh_generation_id and fresh_plan_id stand for the column defaults minted on
INSERT. -/
def GeneratePlanUseCase.execute (notes : List Note) (profiles : List UserProfile)
    (plans : List Plan) (fresh_plan_id fresh_generation_id now : Nat)
    (note_id user_id : Nat) : Except PyErr GeneratePlanOutDTO × List Plan :=
  match NoteRepository.get_by_id notes note_id user_id with
  | .error e => (.error e, plans)
  | .ok _note =>
      let _prefs := UserProfileRepository.get_user_preferences profiles user_id
      match GeneratePlanUseCase.generate_plan_text note_id staged_service_call with
      | .error e => (.error e, plans)
      | .ok text =>
          let created := PlanRepository.create plans
            (Plan.create_ai note_id text fresh_generation_id) fresh_plan_id now
          (.ok
            { generation_id := created.1.generation_id
              plan_text := created.1.plan_text
              status := created.1.status },
            created.2)

/-- Example note owned by user 1, for concrete evaluations. -/
def exNote : Note := ⟨1, 1, "Trip to Tokyo"⟩

/-- Example note table. -/
def exNotes : List Note := [exNote]

/-- Example AI proposal in status PENDING_AI with generation id 7 on note 1. -/
def exPendingPlan : Plan :=
  ⟨1, 1, "Original AI plan text", PlanTypeEnum.AI, PlanStatusEnum.PENDING_AI, 7, 0⟩

/-- Example plan table holding exactly the pending proposal. -/
def exPlans : List Plan := [exPendingPlan]

/-- Example ACTIVE MANUAL plan on note 1. -/
def exActivePlan : Plan :=
  ⟨2, 1, "manual plan", PlanTypeEnum.MANUAL, PlanStatusEnum.ACTIVE, 8, 3⟩

/-- Example plan table holding exactly the active manual plan. -/
def exActivePlans : List Plan := [exActivePlan]

/-- Example ACTIVE plan of type AI (an accepted proposal before any edit). -/
def exActiveAiPlan : Plan :=
  ⟨4, 1, "ai text", PlanTypeEnum.AI, PlanStatusEnum.ACTIVE, 9, 2⟩

/-- Example preference profile for user 1. -/
def exProfile : UserProfile := ⟨1, some "CULTURE", some "MEDIUM", some "MODERATE"⟩

/-- Example profile table holding exactly that profile. -/
def exProfiles : List UserProfile := [exProfile]

/-- The TypeError every staged generate run raises at the service call. -/
def stagedTypeError : PyErr :=
  PyErr.typeError "generate_plan() got an unexpected keyword argument note_content"

/-
Theorems.
-/

/-- C2: AcceptProposal and AcceptProposalAsHybrid raise the invalid-state
error (a ValueError in the source) if and only if the status is not
PENDING_AI, Update raises it if and only if the status is not ACTIVE, and a
failed call leaves every field of the plan unchanged. -/
theorem plan_state_machine_laws (p : Plan) (t : String) :
    (p.status ≠ PlanStatusEnum.PENDING_AI →
      (∃ m, p.accept_ai_proposal.1 = some (PyErr.valueError m)) ∧ p.accept_ai_proposal.2 = p)
  ∧ (p.status = PlanStatusEnum.PENDING_AI → p.accept_ai_proposal.1 = none)
  ∧ (p.status ≠ PlanStatusEnum.PENDING_AI →
      (∃ m, (p.accept_ai_proposal_as_hybrid t).1 = some (PyErr.valueError m)) ∧
        (p.accept_ai_proposal_as_hybrid t).2 = p)
  ∧ (p.status = PlanStatusEnum.PENDING_AI → (p.accept_ai_proposal_as_hybrid t).1 = none)
  ∧ (p.status ≠ PlanStatusEnum.ACTIVE →
      (∃ m, (p.update t).1 = some (PyErr.valueError m)) ∧ (p.update t).2 = p)
  ∧ (p.status = PlanStatusEnum.ACTIVE → (p.update t).1 = none) := by
  refine ⟨?_, ?_, ?_, ?_, ?_, ?_⟩ <;> intro h <;>
    simp [Plan.accept_ai_proposal, Plan.accept_ai_proposal_as_hybrid, Plan.update, h]

/-- Witness for C2 at concrete plans: a PENDING_AI plan accepts without an
exception and a failed hybrid-accept on an ACTIVE plan leaves it unchanged. -/
theorem plan_state_machine_laws_witness :
    exPendingPlan.accept_ai_proposal.1 = none ∧
      (exActivePlan.accept_ai_proposal_as_hybrid "x").2 = exActivePlan :=
  ⟨(plan_state_machine_laws exPendingPlan "x").2.1 rfl,
   ((plan_state_machine_laws exActivePlan "x").2.2.1 (by decide)).2⟩

/-- A single update call never changes the type of a non-AI plan (neither on
success nor on failure). -/
theorem update_type_of_ne_ai (p : Plan) (t : String) (h : p.type ≠ PlanTypeEnum.AI) :
    ((p.update t).2).type = p.type := by
  unfold Plan.update
  by_cases hs : p.status = PlanStatusEnum.ACTIVE <;> simp [hs, h]

/-- A single update call keeps the type inside {AI, HYBRID} when it starts
there. -/
theorem update_type_ai_or_hybrid (p : Plan) (t : String)
    (h : p.type = PlanTypeEnum.AI ∨ p.type = PlanTypeEnum.HYBRID) :
    ((p.update t).2).type = PlanTypeEnum.AI ∨ ((p.update t).2).type = PlanTypeEnum.HYBRID := by
  unfold Plan.update
  by_cases hs : p.status = PlanStatusEnum.ACTIVE <;> rcases h with h | h <;> simp [hs, h]

/-- Unfolding applyUpdates one call at a time. -/
theorem applyUpdates_cons (p : Plan) (t : String) (ts : List String) :
    applyUpdates p (t :: ts) = applyUpdates ((p.update t).2) ts := rfl

/-- Any sequence of update calls preserves the type of a non-AI plan. -/
theorem applyUpdates_type_of_ne_ai :
    ∀ (ts : List String) (p : Plan), p.type ≠ PlanTypeEnum.AI →
      (applyUpdates p ts).type = p.type
  | [], p, h => rfl
  | t :: ts, p, h => by
      rw [applyUpdates_cons]
      rw [applyUpdates_type_of_ne_ai ts ((p.update t).2)
        (by rw [update_type_of_ne_ai p t h]; exact h)]
      exact update_type_of_ne_ai p t h

/-- Any sequence of update calls keeps the type inside {AI, HYBRID} when it
starts there. -/
theorem applyUpdates_type_ai_or_hybrid :
    ∀ (ts : List String) (p : Plan),
      (p.type = PlanTypeEnum.AI ∨ p.type = PlanTypeEnum.HYBRID) →
      ((applyUpdates p ts).type = PlanTypeEnum.AI ∨
        (applyUpdates p ts).type = PlanTypeEnum.HYBRID)
  | [], p, h => h
  | t :: ts, p, h => by
      rw [applyUpdates_cons]
      exact applyUpdates_type_ai_or_hybrid ts ((p.update t).2) (update_type_ai_or_hybrid p t h)

/-- C3: over any sequence of update calls the type only ever transitions AI
to HYBRID: a MANUAL or HYBRID plan keeps its type, an AI plan ends as AI or
HYBRID, a successful update leaves the status ACTIVE, and the first
successful update of an AI plan makes it HYBRID. -/
theorem plan_type_widening (p : Plan) (ts : List String) (t : String) :
    (p.type = PlanTypeEnum.MANUAL → (applyUpdates p ts).type = PlanTypeEnum.MANUAL)
  ∧ (p.type = PlanTypeEnum.HYBRID → (applyUpdates p ts).type = PlanTypeEnum.HYBRID)
  ∧ (p.type = PlanTypeEnum.AI →
      (applyUpdates p ts).type = PlanTypeEnum.AI ∨
        (applyUpdates p ts).type = PlanTypeEnum.HYBRID)
  ∧ ((p.update t).1 = none → (p.update t).2.status = PlanStatusEnum.ACTIVE)
  ∧ ((p.update t).1 = none → p.type = PlanTypeEnum.AI →
      (p.update t).2.type = PlanTypeEnum.HYBRID) := by
  refine ⟨?_, ?_, ?_, ?_, ?_⟩
  · intro h
    rw [applyUpdates_type_of_ne_ai ts p (by rw [h]; intro hc; cases hc)]
    exact h
  · intro h
    rw [applyUpdates_type_of_ne_ai ts p (by rw [h]; intro hc; cases hc)]
    exact h
  · intro h
    exact applyUpdates_type_ai_or_hybrid ts p (Or.inl h)
  · intro h
    revert h
    unfold Plan.update
    by_cases hs : p.status = PlanStatusEnum.ACTIVE <;> simp [hs]
  · intro h ht
    revert h
    unfold Plan.update
    by_cases hs : p.status = PlanStatusEnum.ACTIVE <;> simp [hs, ht]

/-- Witness for C3 at concrete plans: two updates keep a MANUAL plan MANUAL,
and a successful update of an ACTIVE AI plan makes it HYBRID and keeps it
ACTIVE. -/
theorem plan_type_widening_witness :
    (applyUpdates exActivePlan ["a", "b"]).type = PlanTypeEnum.MANUAL ∧
      (exActiveAiPlan.update "x").2.type = PlanTypeEnum.HYBRID ∧
      (exActiveAiPlan.update "x").2.status = PlanStatusEnum.ACTIVE :=
  ⟨(plan_type_widening exActivePlan ["a", "b"] "x").1 rfl,
   (plan_type_widening exActiveAiPlan [] "x").2.2.2.2 rfl rfl,
   (plan_type_widening exActiveAiPlan [] "x").2.2.2.1 rfl⟩

/-- C5: strategy selection is deterministic and input-driven: generation id
present and plan text absent selects AcceptAI, both present selects
CreateHybrid, only plan text present selects CreateManual, and both absent is
rejected (with a ValidationError by the schema validator at the boundary, and
with a ValueError by the use case itself) before any strategy runs. -/
theorem strategy_selection_rule (g : Nat) (t : String) :
    CreateOrAcceptPlanUseCase.select_strategy (some g) none
        = Except.ok (SelectedStrategy.accept_ai g)
  ∧ CreateOrAcceptPlanUseCase.select_strategy (some g) (some t)
        = Except.ok (SelectedStrategy.create_hybrid g t)
  ∧ CreateOrAcceptPlanUseCase.select_strategy none (some t)
        = Except.ok (SelectedStrategy.create_manual t)
  ∧ (∃ m, CreateOrAcceptPlanUseCase.select_strategy none none
        = Except.error (PyErr.valueError m))
  ∧ (∃ m, PlanCreateInSchema.validate_at_least_one_field none none
        = Except.error (PyErr.validationError m)) :=
  ⟨rfl, rfl, rfl, ⟨_, rfl⟩, ⟨_, rfl⟩⟩

/-- C1: executing CreateHybridPlanStrategy on note 1 with the pending
proposal generation id 7 and text "custom" raises
AttributeError("convert_to_hybrid") — Plan has no convert_to_hybrid method —
instead of accepting the proposal as a HYBRID plan; the same failure surfaces
through CreateOrAcceptPlanUseCase in the Scenario-B sequence. -/
theorem hybrid_strategy_attribute_error :
    CreateHybridPlanStrategy.execute exPlans 1 7 "custom" 5
        = Except.error (PyErr.attributeError "convert_to_hybrid")
  ∧ CreateOrAcceptPlanUseCase.execute exNotes exPlans ⟨1, 1, some 7, some "custom"⟩ 2 9 5
        = Except.error (PyErr.attributeError "convert_to_hybrid")
  ∧ exPendingPlan.accept_ai_proposal_as_hybrid "custom"
        = (none, { exPendingPlan with
            plan_text := "custom"
            type := PlanTypeEnum.HYBRID
            status := PlanStatusEnum.ACTIVE }) :=
  ⟨rfl, rfl, rfl⟩

/-- Counterexample to C10 as stated: with generation id 7 present and the
empty string as plan text, the hybrid strategy is indeed selected, but
executing it raises AttributeError("convert_to_hybrid") rather than
replacing the proposal text with the empty string. -/
theorem empty_text_hybrid_counterexample :
    PlanCreateInSchema.validate_at_least_one_field (some 7) (some "") = Except.ok ()
  ∧ CreateOrAcceptPlanUseCase.select_strategy (some 7) (some "")
        = Except.ok (SelectedStrategy.create_hybrid 7 "")
  ∧ CreateOrAcceptPlanUseCase.execute exNotes exPlans ⟨1, 1, some 7, some ""⟩ 2 9 5
        = Except.error (PyErr.attributeError "convert_to_hybrid") :=
  ⟨rfl, rfl, rfl⟩

/-- C10 (amended): the empty-string plan text is treated inconsistently at
the boundary: with generation id absent the schema validator treats the empty
string as absent and rejects the request (so no manual plan with empty text
can be created), while with generation id present the validator passes and
the use case treats the empty string as present, selecting the hybrid
strategy — whose execution then always fails (AttributeError on the missing
convert_to_hybrid method, or PlanNotFoundError) rather than replacing the
proposal text. -/
theorem empty_text_boundary_inconsistency (g note_id now : Nat) (plans : List Plan) :
    (∃ m, PlanCreateInSchema.validate_at_least_one_field none (some "")
        = Except.error (PyErr.validationError m))
  ∧ PlanCreateInSchema.validate_at_least_one_field (some g) (some "") = Except.ok ()
  ∧ CreateOrAcceptPlanUseCase.select_strategy (some g) (some "")
        = Except.ok (SelectedStrategy.create_hybrid g "")
  ∧ (∃ e, CreateHybridPlanStrategy.execute plans note_id g "" now = Except.error e) := by
  refine ⟨⟨_, rfl⟩, rfl, rfl, ?_⟩
  unfold CreateHybridPlanStrategy.execute
  cases h : PlanRepository.get_by_generation_id_and_note_id_and_status
      plans g note_id PlanStatusEnum.PENDING_AI true with
  | error e => exact ⟨e, rfl⟩
  | ok p => exact ⟨PyErr.attributeError "convert_to_hybrid", rfl⟩

/-- Folding latestStep from a some accumulator always yields a some. -/
theorem foldl_latestStep_acc_some :
    ∀ (l : List Plan) (q : Plan), ∃ r, l.foldl latestStep (some q) = some r
  | [], q => ⟨q, rfl⟩
  | p :: l, q => by
      by_cases h : q.updated_at < p.updated_at
      · simpa [List.foldl, latestStep, h] using foldl_latestStep_acc_some l p
      · simpa [List.foldl, latestStep, h] using foldl_latestStep_acc_some l q

/-- The latestStep fold from none yields none exactly on the empty list. -/
theorem foldl_latestStep_none_iff (l : List Plan) :
    l.foldl latestStep none = none ↔ l = [] := by
  cases l with
  | nil => simp
  | cons p l =>
      obtain ⟨r, hr⟩ := foldl_latestStep_acc_some l p
      simp [List.foldl, latestStep, hr]

/-- The latestStep fold returns an element of the list (or the accumulator)
whose updated_at dominates the list and the accumulator. -/
theorem foldl_latestStep_spec :
    ∀ (l : List Plan) (acc : Option Plan) (p : Plan),
      l.foldl latestStep acc = some p →
      (p ∈ l ∨ acc = some p) ∧
        (∀ q ∈ l, q.updated_at ≤ p.updated_at) ∧
        (∀ a, acc = some a → a.updated_at ≤ p.updated_at)
  | [], acc, p, h => by
      refine ⟨Or.inr h, by simp, ?_⟩
      intro a ha
      rw [show acc = some p from h] at ha
      cases ha
      exact Nat.le_refl _
  | r :: l, acc, p, h => by
      have ih := foldl_latestStep_spec l (latestStep acc r) p h
      obtain ⟨ih1, ih2, ih3⟩ := ih
      cases acc with
      | none =>
          have hr : latestStep none r = some r := rfl
          have hrp : r.updated_at ≤ p.updated_at := ih3 r hr
          refine ⟨?_, ?_, ?_⟩
          · rcases ih1 with h1 | h1
            · exact Or.inl (List.mem_cons_of_mem r h1)
            · rw [hr] at h1
              cases h1
              exact Or.inl (List.mem_cons_self r l)
          · intro q hq
            rcases List.mem_cons.mp hq with hq | hq
            · cases hq
              exact hrp
            · exact ih2 q hq
          · intro a ha
            cases ha
      | some b =>
          by_cases hbr : b.updated_at < r.updated_at
          · have hr : latestStep (some b) r = some r := by simp [latestStep, hbr]
            rw [hr] at ih1 ih3
            have hrp : r.updated_at ≤ p.updated_at := ih3 r rfl
            refine ⟨?_, ?_, ?_⟩
            · rcases ih1 with h1 | h1
              · exact Or.inl (List.mem_cons_of_mem r h1)
              · cases h1
                exact Or.inl (List.mem_cons_self r l)
            · intro q hq
              rcases List.mem_cons.mp hq with hq | hq
              · cases hq
                exact hrp
              · exact ih2 q hq
            · intro a ha
              cases ha
              exact Nat.le_trans (Nat.le_of_lt hbr) hrp
          · have hr : latestStep (some b) r = some b := by simp [latestStep, hbr]
            rw [hr] at ih1 ih3
            have hbp : b.updated_at ≤ p.updated_at := ih3 b rfl
            refine ⟨?_, ?_, ?_⟩
            · rcases ih1 with h1 | h1
              · exact Or.inl (List.mem_cons_of_mem r h1)
              · exact Or.inr h1
            · intro q hq
              rcases List.mem_cons.mp hq with hq | hq
              · cases hq
                exact Nat.le_trans (Nat.le_of_not_lt hbr) hbp
              · exact ih2 q hq
            · intro a ha
              cases ha
              exact hbp

/-- Specification of the last-updated query: a returned plan matches the
filter and its updated_at dominates every matching plan. -/
theorem get_last_updated_spec (plans : List Plan) (note_id : Nat) (st : PlanStatusEnum)
    (p : Plan)
    (h : PlanRepository.get_last_updated_by_note_id_and_status plans note_id st = some p) :
    p ∈ plans ∧ p.note_id = note_id ∧ p.status = st ∧
      ∀ q ∈ plans, q.note_id = note_id → q.status = st →
        q.updated_at ≤ p.updated_at := by
  unfold PlanRepository.get_last_updated_by_note_id_and_status at h
  obtain ⟨h1, h2, _⟩ := foldl_latestStep_spec _ none p h
  rcases h1 with h1 | h1
  · have hm := List.mem_filter.mp h1
    have hp := of_decide_eq_true hm.2
    refine ⟨hm.1, hp.1, hp.2, ?_⟩
    intro q hq hqn hqs
    exact h2 q (List.mem_filter.mpr ⟨hq, decide_eq_true ⟨hqn, hqs⟩⟩)
  · cases h1

/-- The last-updated query returns None exactly when no plan matches. -/
theorem get_last_updated_none_iff (plans : List Plan) (note_id : Nat) (st : PlanStatusEnum) :
    PlanRepository.get_last_updated_by_note_id_and_status plans note_id st = none ↔
      ∀ p ∈ plans, ¬(p.note_id = note_id ∧ p.status = st) := by
  unfold PlanRepository.get_last_updated_by_note_id_and_status
  rw [foldl_latestStep_none_iff, List.filter_eq_nil_iff]
  simp

/-- C8: for a note the requesting user owns, GetActive returns an ACTIVE plan
of that note whose updated_at dominates every ACTIVE plan of the note when
one exists, fails with ActivePlanNotFoundError when none exists, and never
modifies the stored plans. -/
theorem get_active_plan_spec (notes : List Note) (plans : List Plan)
    (note_id user_id : Nat) (n : Note)
    (hnote : NoteRepository.get_by_id notes note_id user_id = Except.ok n) :
    ((GetActivePlanUseCase.execute notes plans note_id user_id).2 = plans)
  ∧ ((∃ p ∈ plans, p.note_id = note_id ∧ p.status = PlanStatusEnum.ACTIVE) →
      ∃ p, (GetActivePlanUseCase.execute notes plans note_id user_id).1 = Except.ok p ∧
        p ∈ plans ∧ p.note_id = note_id ∧ p.status = PlanStatusEnum.ACTIVE ∧
        ∀ q ∈ plans, q.note_id = note_id → q.status = PlanStatusEnum.ACTIVE →
          q.updated_at ≤ p.updated_at)
  ∧ ((¬∃ p ∈ plans, p.note_id = note_id ∧ p.status = PlanStatusEnum.ACTIVE) →
      (GetActivePlanUseCase.execute notes plans note_id user_id).1 =
        Except.error (PyErr.activePlanNotFound note_id)) := by
  unfold GetActivePlanUseCase.execute
  rw [hnote]
  cases h : PlanRepository.get_last_updated_by_note_id_and_status
      plans note_id PlanStatusEnum.ACTIVE with
  | none =>
      refine ⟨rfl, ?_, fun _ => rfl⟩
      intro ⟨p, hp, hpn, hps⟩
      exact absurd ⟨hpn, hps⟩ ((get_last_updated_none_iff plans note_id _).mp h p hp)
  | some p =>
      obtain ⟨hmem, hn, hs, hmax⟩ := get_last_updated_spec plans note_id _ p h
      exact ⟨rfl, fun _ => ⟨p, rfl, hmem, hn, hs, hmax⟩, fun hc => absurd ⟨p, hmem, hn, hs⟩ hc⟩

/-- Witness for C8 at a concrete store: with one ACTIVE MANUAL plan on
note 1, GetActive returns it and leaves the store unchanged. -/
theorem get_active_plan_spec_witness :
    (GetActivePlanUseCase.execute exNotes exActivePlans 1 1).2 = exActivePlans ∧
      ∃ p, (GetActivePlanUseCase.execute exNotes exActivePlans 1 1).1 = Except.ok p ∧
        p ∈ exActivePlans ∧ p.note_id = 1 ∧ p.status = PlanStatusEnum.ACTIVE ∧
        ∀ q ∈ exActivePlans, q.note_id = 1 → q.status = PlanStatusEnum.ACTIVE →
          q.updated_at ≤ p.updated_at :=
  ⟨(get_active_plan_spec exNotes exActivePlans 1 1 exNote rfl).1,
   (get_active_plan_spec exNotes exActivePlans 1 1 exNote rfl).2.1
     ⟨exActivePlan, by decide, by decide, by decide⟩⟩

/-- C9: the three-column point lookup returns a plan only when its
generation_id, note_id and status all equal the arguments, and whenever no
stored plan carries that exact combination — in particular a wrong note_id
or wrong status for an existing generation_id — it raises
PlanNotFoundError. -/
theorem lookup_exact_match (plans : List Plan) (g n : Nat) (st : PlanStatusEnum)
    (fu : Bool) :
    (∀ p, PlanRepository.get_by_generation_id_and_note_id_and_status plans g n st fu
        = Except.ok p →
      p ∈ plans ∧ p.generation_id = g ∧ p.note_id = n ∧ p.status = st)
  ∧ ((∀ p ∈ plans, p.generation_id = g → ¬(p.note_id = n ∧ p.status = st)) →
      PlanRepository.get_by_generation_id_and_note_id_and_status plans g n st fu
        = Except.error (PyErr.planNotFound g n)) := by
  constructor
  · intro p hp
    unfold PlanRepository.get_by_generation_id_and_note_id_and_status at hp
    cases hf : plans.find?
        (fun q => decide (q.generation_id = g ∧ q.note_id = n ∧ q.status = st)) with
    | none => rw [hf] at hp; cases hp
    | some q =>
        rw [hf] at hp
        cases hp
        have hq := List.find?_some hf
        simp only [decide_eq_true_eq] at hq
        exact ⟨List.mem_of_find?_eq_some hf, hq.1, hq.2.1, hq.2.2⟩
  · intro hnone
    unfold PlanRepository.get_by_generation_id_and_note_id_and_status
    have : plans.find?
        (fun q => decide (q.generation_id = g ∧ q.note_id = n ∧ q.status = st)) = none := by
      rw [List.find?_eq_none]
      intro q hq
      simp only [decide_eq_true_eq]
      intro ⟨h1, h2, h3⟩
      exact hnone q hq h1 ⟨h2, h3⟩
    rw [this]

/-- Witness for C9: querying the stored generation id 7 with the wrong
note id 2 fails with PlanNotFoundError, and with the exact combination it
returns the matching row. -/
theorem lookup_exact_match_witness :
    PlanRepository.get_by_generation_id_and_note_id_and_status exPlans 7 2
        PlanStatusEnum.PENDING_AI true = Except.error (PyErr.planNotFound 7 2) ∧
      exPendingPlan ∈ exPlans ∧ exPendingPlan.generation_id = 7 ∧
        exPendingPlan.note_id = 1 ∧ exPendingPlan.status = PlanStatusEnum.PENDING_AI :=
  ⟨(lookup_exact_match exPlans 7 2 PlanStatusEnum.PENDING_AI true).2 (by decide),
   (lookup_exact_match exPlans 7 1 PlanStatusEnum.PENDING_AI true).1 exPendingPlan rfl⟩

/-- The three-column lookup either fails with PlanNotFoundError or returns a
plan. -/
theorem lookup_cases (plans : List Plan) (g n : Nat) (st : PlanStatusEnum) (fu : Bool) :
    PlanRepository.get_by_generation_id_and_note_id_and_status plans g n st fu
        = Except.error (PyErr.planNotFound g n)
  ∨ ∃ p, PlanRepository.get_by_generation_id_and_note_id_and_status plans g n st fu
        = Except.ok p := by
  unfold PlanRepository.get_by_generation_id_and_note_id_and_status
  cases hf : plans.find?
      (fun p => decide (p.generation_id = g ∧ p.note_id = n ∧ p.status = st)) with
  | none => simp
  | some p => simp

/-- AcceptAIPlanStrategy never surfaces a PlanConflictError. -/
theorem acceptAI_not_conflict (plans : List Plan) (note_id g now m : Nat) :
    AcceptAIPlanStrategy.execute plans note_id g now
      ≠ Except.error (PyErr.planConflict m) := by
  unfold AcceptAIPlanStrategy.execute
  rcases lookup_cases plans g note_id PlanStatusEnum.PENDING_AI true with h | ⟨p, h⟩ <;>
    rw [h]
  · simp
  · unfold Plan.accept_ai_proposal
    by_cases hs : p.status = PlanStatusEnum.PENDING_AI <;> simp [hs]

/-- CreateHybridPlanStrategy never surfaces a PlanConflictError. -/
theorem hybrid_not_conflict (plans : List Plan) (note_id g now m : Nat) (t : String) :
    CreateHybridPlanStrategy.execute plans note_id g t now
      ≠ Except.error (PyErr.planConflict m) := by
  unfold CreateHybridPlanStrategy.execute
  rcases lookup_cases plans g note_id PlanStatusEnum.PENDING_AI true with h | ⟨p, h⟩ <;>
    rw [h] <;> simp

/-- Evaluation of CreateOrAcceptPlanUseCase.execute once the note lookup
succeeds. -/
theorem create_or_accept_eval (notes : List Note) (plans : List Plan)
    (dto : PlanCreateInDTO) (fresh_id fresh_generation_id now : Nat) (n : Note)
    (hnote : NoteRepository.get_by_id notes dto.note_id dto.user_id = Except.ok n) :
    CreateOrAcceptPlanUseCase.execute notes plans dto fresh_id fresh_generation_id now =
      match CreateOrAcceptPlanUseCase.validate_no_active_plan_conflict
          plans dto.note_id dto.generation_id with
      | some e => Except.error e
      | none =>
          match CreateOrAcceptPlanUseCase.select_strategy dto.generation_id dto.plan_text with
          | Except.error e => Except.error e
          | Except.ok (SelectedStrategy.accept_ai g) =>
              AcceptAIPlanStrategy.execute plans dto.note_id g now
          | Except.ok (SelectedStrategy.create_hybrid g t) =>
              CreateHybridPlanStrategy.execute plans dto.note_id g t now
          | Except.ok (SelectedStrategy.create_manual t) =>
              CreateManualPlanStrategy.execute plans dto.note_id t fresh_id
                fresh_generation_id now := by
  unfold CreateOrAcceptPlanUseCase.execute
  rw [hnote]

/-- C4: with the note lookup succeeding, CreateOrAccept fails with
PlanConflictError exactly when the generation id is absent and an ACTIVE plan
already exists for the note; when a generation id is present the conflict
check is skipped and no existing ACTIVE plan ever surfaces a conflict. -/
theorem manual_conflict_check_spec (notes : List Note) (plans : List Plan)
    (dto : PlanCreateInDTO) (fresh_id fresh_generation_id now : Nat) (n : Note)
    (hnote : NoteRepository.get_by_id notes dto.note_id dto.user_id = Except.ok n) :
    (CreateOrAcceptPlanUseCase.execute notes plans dto fresh_id fresh_generation_id now
        = Except.error (PyErr.planConflict dto.note_id)
      ↔ dto.generation_id = none ∧
          ∃ p ∈ plans, p.note_id = dto.note_id ∧ p.status = PlanStatusEnum.ACTIVE)
  ∧ (∀ g, dto.generation_id = some g → ∀ m,
      CreateOrAcceptPlanUseCase.execute notes plans dto fresh_id fresh_generation_id now
        ≠ Except.error (PyErr.planConflict m)) := by
  rw [create_or_accept_eval notes plans dto fresh_id fresh_generation_id now n hnote]
  cases hg : dto.generation_id with
  | none =>
      cases ha : PlanRepository.get_last_updated_by_note_id_and_status
          plans dto.note_id PlanStatusEnum.ACTIVE with
      | some q =>
          obtain ⟨hm, hn2, hs, _⟩ := get_last_updated_spec plans dto.note_id _ q ha
          refine ⟨?_, ?_⟩
          · simp only [CreateOrAcceptPlanUseCase.validate_no_active_plan_conflict, ha]
            refine ⟨fun _ => ⟨?_, q, hm, hn2, hs⟩, fun _ => ?_⟩ <;> simp
          · intro g hgg
            cases hgg
      | none =>
          refine ⟨?_, ?_⟩
          · simp only [CreateOrAcceptPlanUseCase.validate_no_active_plan_conflict, ha]
            constructor
            · intro hc
              cases ht : dto.plan_text with
              | none =>
                  rw [ht] at hc
                  simp [CreateOrAcceptPlanUseCase.select_strategy] at hc
              | some t =>
                  rw [ht] at hc
                  simp [CreateOrAcceptPlanUseCase.select_strategy,
                    CreateManualPlanStrategy.execute] at hc
            · intro ⟨_, p, hp, hpn, hps⟩
              exact absurd ⟨hpn, hps⟩
                ((get_last_updated_none_iff plans dto.note_id _).mp ha p hp)
          · intro g hgg
            cases hgg
  | some g =>
      refine ⟨?_, ?_⟩
      · simp only [CreateOrAcceptPlanUseCase.validate_no_active_plan_conflict]
        constructor
        · intro hc
          cases ht : dto.plan_text with
          | none =>
              rw [ht] at hc
              simp only [CreateOrAcceptPlanUseCase.select_strategy] at hc
              exact absurd hc (acceptAI_not_conflict plans dto.note_id g now dto.note_id)
          | some t =>
              rw [ht] at hc
              simp only [CreateOrAcceptPlanUseCase.select_strategy] at hc
              exact absurd hc (hybrid_not_conflict plans dto.note_id g now dto.note_id t)
        · intro ⟨hc, _⟩
          cases hc
      · intro g2 hgg m
        cases hgg
        simp only [CreateOrAcceptPlanUseCase.validate_no_active_plan_conflict]
        cases ht : dto.plan_text with
        | none =>
            simp only [CreateOrAcceptPlanUseCase.select_strategy]
            exact acceptAI_not_conflict plans dto.note_id g now m
        | some t =>
            simp only [CreateOrAcceptPlanUseCase.select_strategy]
            exact hybrid_not_conflict plans dto.note_id g now m t

/-- Witness for C4: the Scenario-C second manual create on note 1 (an ACTIVE
manual plan already stored, no generation id) fails with
PlanConflictError(1). -/
theorem manual_conflict_check_spec_witness :
    CreateOrAcceptPlanUseCase.execute exNotes exActivePlans ⟨1, 1, none, some "another"⟩ 2 9 5
      = Except.error (PyErr.planConflict 1) :=
  (manual_conflict_check_spec exNotes exActivePlans ⟨1, 1, none, some "another"⟩ 2 9 5
      exNote rfl).1.mpr ⟨rfl, exActivePlan, by decide, by decide, by decide⟩

/-- C6 evaluation: for a user with no preference profile the generate use
case never raises a profile error: get_user_preferences silently substitutes
the empty preferences dict for the missing profile and the run proceeds past
the profile step, failing only later with the PlanGenerationError that wraps
the keyword-binding TypeError every staged generate run hits — not with
ProfileNotFoundError, which the use case docstring and the repo unit tests
expect. -/
theorem generate_without_profile_not_profile_error :
    UserProfileRepository.get_user_preferences [] 1 = []
  ∧ GeneratePlanUseCase.execute exNotes [] [] 3 11 4 1 1
      = (Except.error (PyErr.planGeneration 1 stagedTypeError.message (some stagedTypeError)),
         []) :=
  ⟨rfl, rfl⟩

/-- C7 evaluation: the AI adapter is unreachable from the staged generate
use case: even with a profile present, a run surfaces the PlanGenerationError
whose cause is the keyword-binding TypeError, never an AI error, and no
plan row is persisted; the staged service-layer translation the claim
describes does wrap an AI timeout as PlanGenerationError with the cause
preserved, but the use case never invokes the service successfully. -/
theorem generate_ai_adapter_unreachable :
    GeneratePlanUseCase.execute exNotes exProfiles [] 3 11 4 1 1
      = (Except.error (PyErr.planGeneration 1 stagedTypeError.message (some stagedTypeError)),
         [])
  ∧ PlanGenerationService.generate_plan 1 (Except.error PyErr.aiTimeout)
      = Except.error (PyErr.planGeneration 1 PyErr.aiTimeout.message (some PyErr.aiTimeout)) :=
  ⟨rfl, rfl⟩

end VibeTravel
